import Mathlib

/-!
# m_largetextpaste: a verification development

Shallow embedding of `src/2.0/m_largetextpaste.cpp`, the InspIRCd 2.0 module that
sends long channel messages to a paste service and replaces the message by a
snippet followed by the service's answer.

* `std::string` values and `char` buffers are lists of characters (`Str`).
* The module object is the record `ModuleLargeTextPaste`; its member functions take
  the record explicitly and return the new value of what they change.
* libcurl and the network are an explicit environment (`Libcurl`): whether
  `curl_easy_init` yields a handle, what `curl_easy_escape` returns, and what
  `curl_easy_perform` does for a given handle (its result code and the calls it
  makes to the write callback).
* `ServerInstance->Logs->Log` calls change nothing the module reads and are left out.
* Pointers are modelled where the source hands one to libcurl or reads through one:
  the `response` buffer (`CharPtr`) and the data of `CURLOPT_POSTFIELDS` (`PostData`),
  whose target may have been destroyed. Deallocation (`delete response`) is not
  modelled.
-/

namespace LargeTextPaste

/-! ## Strings and the C library -/

/-- Contents of a `std::string` or of a `char` buffer, one list element per `char`. -/
abbrev Str := List Char

/-- The character `'\0'`. -/
def NUL : Char := Char.ofNat 0

/-- C `strncpy(dest, src, n)`: the `n` characters written to `dest`. Characters of
`src` are copied until `n` are written or a `'\0'` is met; the rest of the `n`
characters is filled with `'\0'`. `src` lists the memory readable at the source
pointer. -/
def strncpy (src : Str) (n : Nat) : Str :=
  let copied := (src.take n).takeWhile (fun c => c != NUL)
  copied ++ List.replicate (n - copied.length) NUL

/-- The call `std::string::resize(n)`: the first `n` characters are kept, and a shorter
string is extended to `n` characters with `char()`, which is `'\0'`. -/
def resize (text : Str) (n : Nat) : Str :=
  text.take n ++ List.replicate (n - text.length) NUL

/-- A `char*` that is either null (`none`) or points at the start of an allocated
buffer with the given contents. -/
abbrev CharPtr := Option Str

/-- The C string read through a `char*`, as `std::string::append(const char*)` reads
it: the characters before the first `'\0'`. Reading through a null pointer, or
running off the end of a buffer that holds no `'\0'`, has no defined result
(`none`): a null pointer makes the read fault, and past the end of a buffer the read
goes on into whatever memory follows it. -/
def c_str (p : CharPtr) : Option Str :=
  match p with
  | none => none
  | some buf => if NUL ∈ buf then some (buf.takeWhile (fun c => c != NUL)) else none

/-! ## libcurl -/

/-- The type `CURLcode`, the result of `curl_easy_perform`. -/
abbrev CURLcode := Nat

/-- The code `CURLE_OK`. -/
def CURLE_OK : CURLcode := 0

/-- The data of `CURLOPT_POSTFIELDS` as a handle holds it. libcurl does not copy that
data: it keeps the `char*` it is given and reads through it during the transfer. The
pointer is either not set, or points into a string object that is alive and has the
given contents, or points into a string object that has been destroyed. -/
inductive PostData where
  | unset
  | alive (contents : Str)
  | destroyed
deriving DecidableEq, Repr

/-- The end of the lifetime of the string object a `PostData` points into. -/
def PostData.end_of_lifetime : PostData → PostData
  | .alive _ => .destroyed
  | d => d

/-- The options of an easy handle that `setup_curl_request` sets with a value of its
own: `CURLOPT_URL` (a string libcurl copies), `CURLOPT_POST`, and `CURLOPT_POSTFIELDS`
(a pointer libcurl keeps). (`CURLOPT_WRITEFUNCTION` is always `write_data` and
`CURLOPT_WRITEDATA` always the `response` variable of the caller; they are built into
`OnUserPreMessage` below.) -/
structure CURL where
  url : Str
  post : Nat
  postfields : PostData
deriving DecidableEq, Repr

/-- One invocation of the write callback by libcurl: the memory at `ptr` and the two
size arguments. -/
structure WriteCall where
  ptr : Str
  size : Nat
  nmemb : Nat
deriving DecidableEq, Repr

/-- The environment: libcurl together with the network behind it. -/
structure Libcurl where
  /-- The call `curl_easy_init()`: a fresh handle, or `none` for a null pointer. -/
  curl_easy_init : Option CURL
  /-- The string returned by `curl_easy_escape(handle, s.c_str(), s.size())`. -/
  curl_easy_escape : Str → Str
  /-- The call `curl_easy_perform(handle)`: the result code and, in order, the calls
  made to the write callback during the transfer. -/
  curl_easy_perform : CURL → CURLcode × List WriteCall

/-- The libcurl calls of `OnUserPreMessage` that the development keeps track of. -/
inductive CurlCall where
  | easy_init
  | easy_perform (curl : CURL)
  | easy_cleanup
deriving DecidableEq, Repr

/-- Whether a recorded call is a `curl_easy_perform`. -/
def CurlCall.isPerform : CurlCall → Bool
  | .easy_perform _ => true
  | _ => false

/-! ## Host interface -/

/-- Modelled from the spec: the host's hook disposition (`inspircd.h` is not among
the sources); `MOD_RES_PASSTHRU` is the pass-through disposition. -/
inductive ModResult where
  | MOD_RES_ALLOW
  | MOD_RES_PASSTHRU
  | MOD_RES_DENY
deriving DecidableEq, Repr

/-- Modelled from the spec: the host's target-type flag (`inspircd.h` is not among
the sources); `TYPE_CHANNEL` is the multi-recipient destination. -/
inductive TargetType where
  | TYPE_USER
  | TYPE_CHANNEL
  | TYPE_SERVER
  | TYPE_OTHER
deriving DecidableEq, Repr

/-- Modelled from the spec: what the module reads of the host's `User`: the nick and
whether `IS_LOCAL(user)` holds. -/
structure User where
  nick : Str
  is_local : Bool
deriving DecidableEq, Repr

/-- Modelled from the spec: the host's configuration tag. A key is either absent or
configured with a value; integer values are signed. -/
structure ConfigTag where
  ints : String → Option Int
  strings : String → Option Str

/-- Modelled from the spec: `ConfigTag::getInt(key, def)` gives the configured value,
or `def` when the key is absent. -/
def ConfigTag.getInt (conf : ConfigTag) (key : String) (dflt : Int) : Int :=
  (conf.ints key).getD dflt

/-- Modelled from the spec: `ConfigTag::getString(key)` gives the configured value, or
the empty string when the key is absent. -/
def ConfigTag.getString (conf : ConfigTag) (key : String) : Str :=
  (conf.strings key).getD []

/-- Conversion of a signed integer to `unsigned int` (32 bits): reduction modulo
`2^32`. -/
def to_unsigned_int (v : Int) : Nat := (v % 4294967296).toNat

/-! ## The module -/

/-- The data members of `class ModuleLargeTextPaste`. -/
structure ModuleLargeTextPaste where
  apiKey : Str
  serviceUrl : Str
  snipLen : Nat
  cutoffLen : Nat
deriving DecidableEq, Repr

/-- What a run of `OnUserPreMessage` leaves behind: the libcurl calls made, and, when
the hook returns, the message body at that point with the returned disposition.
`returned = none` means that the run reached `text.append(response)` with a pointer
that cannot be read as a C string, so that no body and no disposition are defined
for it. -/
structure Outcome where
  calls : List CurlCall
  returned : Option (Str × ModResult)
deriving DecidableEq, Repr

namespace ModuleLargeTextPaste

/-- The source's `write_data(ptr, size, nmemb, userdata)`: the new value of
`*response_ptr` and the returned byte count. The old value of `*response_ptr` is
overwritten without being read. `new char[n]` either yields a buffer or throws, so
the null test that follows it succeeds. libcurl passes the byte count of a chunk it
holds in memory, so the product `size * nmemb` does not wrap around. -/
def write_data (ptr : Str) (size nmemb : Nat) (_response : CharPtr) : CharPtr × Nat :=
  (some (strncpy ptr (size * nmemb)), size * nmemb)

/-- The value of `response` after libcurl has made the given calls to `write_data`
with `CURLOPT_WRITEDATA` pointing at `response`. -/
def deliver (writes : List WriteCall) (response : CharPtr) : CharPtr :=
  writes.foldl (fun r w => (write_data w.ptr w.size w.nmemb r).1) response

/-- The local `postFields` of `setup_curl_request`, built by the same sequence of
`+=` statements. -/
def postFields (m : ModuleLargeTextPaste) (env : Libcurl) (nick text : Str) : Str :=
  let pasteName := nick ++ " wrote".toList
  let postFields := "api_option=paste".toList
  let postFields := postFields ++ ("&api_dev_key=".toList ++ m.apiKey)
  let postFields := postFields ++ ("&api_paste_code=".toList ++ env.curl_easy_escape text)
  let postFields := postFields ++ ("&api_paste_name=".toList ++ env.curl_easy_escape pasteName)
  let postFields := postFields ++ "&api_paste_private=1".toList
  let postFields := postFields ++ "&api_paste_expire_date=N".toList
  postFields

/-- The handle inside `setup_curl_request(curl_ptr, nick, text, response)` after its
last `curl_easy_setopt` call and before it returns: `CURLOPT_POSTFIELDS` is
`postFields.c_str()`, a pointer into the local `postFields`, which is still alive. -/
def setup_curl_request_before_return (m : ModuleLargeTextPaste) (env : Libcurl) (curl : CURL)
    (nick text : Str) : CURL :=
  let postFields := postFields m env nick text
  let curl := { curl with url := m.serviceUrl }
  let curl := { curl with post := 1 }
  let curl := { curl with postfields := PostData.alive postFields }
  curl

/-- The source's `setup_curl_request(curl_ptr, nick, text, response)`: the handle the
caller is left with. When the function returns, its locals `pasteName` and
`postFields` are destroyed, and with them the buffer `CURLOPT_POSTFIELDS` points
into. -/
def setup_curl_request (m : ModuleLargeTextPaste) (env : Libcurl) (curl : CURL)
    (nick text : Str) : CURL :=
  let curl := setup_curl_request_before_return m env curl nick text
  { curl with postfields := curl.postfields.end_of_lifetime }

/-- The source's `OnUserPreMessage(user, dest, target_type, text, status, exempt_list)`.
`dest`, `status` and `exempt_list` are not used by the source. -/
def OnUserPreMessage (m : ModuleLargeTextPaste) (env : Libcurl) (user : User)
    (target_type : TargetType) (text : Str) : Outcome :=
  if target_type = TargetType.TYPE_CHANNEL ∧ user.is_local = true ∧ text.length > m.cutoffLen then
    match env.curl_easy_init with
    | some curl =>
      let response : CharPtr := none
      let curl := setup_curl_request m env curl user.nick text
      let (result, writes) := env.curl_easy_perform curl
      let response := deliver writes response
      if result = CURLE_OK then
        let text := resize text m.snipLen
        match c_str response with
        | some r =>
          { calls := [CurlCall.easy_init, CurlCall.easy_perform curl, CurlCall.easy_cleanup],
            returned := some (text ++ "... (more ".toList ++ r ++ " )".toList,
              ModResult.MOD_RES_PASSTHRU) }
        | none =>
          { calls := [CurlCall.easy_init, CurlCall.easy_perform curl],
            returned := none }
      else
        { calls := [CurlCall.easy_init, CurlCall.easy_perform curl, CurlCall.easy_cleanup],
          returned := some (text, ModResult.MOD_RES_PASSTHRU) }
    | none =>
      { calls := [CurlCall.easy_init, CurlCall.easy_cleanup],
        returned := some (text, ModResult.MOD_RES_PASSTHRU) }
  else
    { calls := [], returned := some (text, ModResult.MOD_RES_PASSTHRU) }

/-- The source's `OnRehash(user)`, reading the tag `largetextpaste` of the
configuration. -/
def OnRehash (m : ModuleLargeTextPaste) (conf : ConfigTag) : ModuleLargeTextPaste :=
  let m := { m with snipLen := to_unsigned_int (conf.getInt "sniplen" 60) }
  let m := { m with cutoffLen := to_unsigned_int (conf.getInt "cutofflen" 300) }
  let m := { m with apiKey := conf.getString "apikey" }
  m

/-- The source's `init()`: the service URL is set, then the configuration is read. -/
def init (m : ModuleLargeTextPaste) (conf : ConfigTag) : ModuleLargeTextPaste :=
  let m := { m with serviceUrl := "http://pastebin.com/api/api_post.php".toList }
  OnRehash m conf

end ModuleLargeTextPaste

/-! ## Sample inputs

Concrete modules, users and environments at which the statements below are
evaluated. -/

/-- A percent-encoder in the manner of `curl_easy_escape`, for the sample
environments: letters, digits, `-`, `.`, `_` and `~` are kept, any other character
becomes `%` followed by the two upper-case hexadecimal digits of its code modulo 256. -/
def sampleEscape (s : Str) : Str :=
  let hex : Nat → Char := fun d => if d < 10 then Char.ofNat (48 + d) else Char.ofNat (55 + d)
  s.flatMap fun c =>
    if c.isAlphanum || c = '-' || c = '.' || c = '_' || c = '~' then [c]
    else ['%', hex (c.toNat / 16 % 16), hex (c.toNat % 16)]

/-- A handle as `curl_easy_init` returns it: no option set. -/
def freshHandle : CURL := { url := [], post := 0, postfields := PostData.unset }

/-- An environment whose transfer succeeds and delivers the given write calls. -/
def envOk (writes : List WriteCall) : Libcurl :=
  { curl_easy_init := some freshHandle,
    curl_easy_escape := sampleEscape,
    curl_easy_perform := fun _ => (CURLE_OK, writes) }

/-- An environment whose transfer fails with code 7 (`CURLE_COULDNT_CONNECT`). -/
def envFail : Libcurl :=
  { curl_easy_init := some freshHandle,
    curl_easy_escape := sampleEscape,
    curl_easy_perform := fun _ => (7, []) }

/-- An environment in which `curl_easy_init` returns a null pointer. -/
def envNoHandle : Libcurl :=
  { curl_easy_init := none,
    curl_easy_escape := sampleEscape,
    curl_easy_perform := fun _ => (CURLE_OK, []) }

/-- The module as configured by default, with the given two lengths. -/
def sampleModule (snipLen cutoffLen : Nat) : ModuleLargeTextPaste :=
  { apiKey := "key".toList,
    serviceUrl := "http://pastebin.com/api/api_post.php".toList,
    snipLen := snipLen,
    cutoffLen := cutoffLen }

/-- A locally connected user. -/
def localUser : User := { nick := "alice".toList, is_local := true }

/-- A user connected to another server. -/
def remoteUser : User := { nick := "bob".toList, is_local := false }

/-- One write call delivering the given characters followed by a `'\0'`. -/
def terminatedWrite (s : Str) : WriteCall :=
  { ptr := s ++ [NUL], size := 1, nmemb := s.length + 1 }

/-- A configuration tag with the three keys of the module, each absent or configured. -/
def sampleConf (sniplen cutofflen : Option Int) (apikey : Option Str) : ConfigTag :=
  { ints := fun key =>
      if key = "sniplen" then sniplen else if key = "cutofflen" then cutofflen else none,
    strings := fun key => if key = "apikey" then apikey else none }

/-- One write call delivering exactly the given characters. -/
def plainWrite (s : Str) : WriteCall :=
  { ptr := s, size := 1, nmemb := s.length }


/-! ## Auxiliary facts -/

theorem resize_length (text : Str) (n : Nat) : (resize text n).length = n := by
  simp only [resize, List.length_append, List.length_take, List.length_replicate]
  omega

theorem resize_of_le (text : Str) (n : Nat) (h : n ≤ text.length) :
    resize text n = text.take n := by
  simp [resize, Nat.sub_eq_zero_of_le h]

theorem resize_of_length_le (text : Str) (n : Nat) (h : text.length ≤ n) :
    resize text n = text ++ List.replicate (n - text.length) NUL := by
  simp [resize, List.take_of_length_le h]

theorem strncpy_length (src : Str) (n : Nat) : (strncpy src n).length = n := by
  have h1 : ((src.take n).takeWhile (fun c => c != NUL)).length ≤ (src.take n).length :=
    (List.takeWhile_sublist (fun c => c != NUL)).length_le
  have h2 : (src.take n).length ≤ n := by
    rw [List.length_take]
    exact Nat.min_le_left _ _
  simp only [strncpy, List.length_append, List.length_replicate]
  omega

theorem strncpy_of_no_NUL (src : Str) (n : Nat) (hn : src.length = n) (h0 : NUL ∉ src) :
    strncpy src n = src := by
  have ht : src.take n = src := List.take_of_length_le (le_of_eq hn)
  have hw : src.takeWhile (fun c => c != NUL) = src := by
    rw [List.takeWhile_eq_self_iff]
    intro c hc
    have : c ≠ NUL := fun h => h0 (h ▸ hc)
    simpa using this
  simp [strncpy, ht, hw, hn]

theorem to_unsigned_int_cast (v : Int) : (to_unsigned_int v : Int) = v % 4294967296 := by
  unfold to_unsigned_int
  exact Int.toNat_of_nonneg (Int.emod_nonneg v (by decide))

theorem to_unsigned_int_of_range (v : Int) (h0 : 0 ≤ v) (h1 : v < 4294967296) :
    (to_unsigned_int v : Int) = v := by
  rw [to_unsigned_int_cast, Int.emod_eq_of_lt h0 h1]

theorem c_str_of_no_NUL (buf : Str) (h0 : NUL ∉ buf) : c_str (some buf) = none := by
  simp [c_str, h0]

namespace ModuleLargeTextPaste

/-- After a last chunk of `size * nmemb` characters without a `'\0'`, `response`
points at a buffer that holds exactly that chunk. -/
theorem deliver_of_no_NUL (writes : List WriteCall) (w : WriteCall) (response : CharPtr)
    (hlen : w.ptr.length = w.size * w.nmemb) (h0 : NUL ∉ w.ptr) :
    deliver (writes ++ [w]) response = some w.ptr := by
  simp [deliver, write_data, List.foldl_append, strncpy_of_no_NUL w.ptr _ hlen h0]

/-- After a last chunk of `size * nmemb` characters without a `'\0'`, `response`
cannot be read as a C string. -/
theorem c_str_deliver_unterminated (writes : List WriteCall) (w : WriteCall)
    (response : CharPtr) (hlen : w.ptr.length = w.size * w.nmemb) (h0 : NUL ∉ w.ptr) :
    c_str (deliver (writes ++ [w]) response) = none := by
  rw [deliver_of_no_NUL writes w response hlen h0, c_str_of_no_NUL w.ptr h0]

/-- The run of the hook on a message that does not qualify. -/
theorem OnUserPreMessage_not_qualifying (m : ModuleLargeTextPaste) (env : Libcurl) (user : User)
    (target_type : TargetType) (text : Str)
    (h : ¬ (target_type = TargetType.TYPE_CHANNEL ∧ user.is_local = true ∧
      text.length > m.cutoffLen)) :
    OnUserPreMessage m env user target_type text =
      { calls := [], returned := some (text, ModResult.MOD_RES_PASSTHRU) } := by
  unfold OnUserPreMessage
  rw [if_neg h]

/-- The run of the hook on a qualifying message when no handle is created. -/
theorem OnUserPreMessage_no_handle (m : ModuleLargeTextPaste) (env : Libcurl) (user : User)
    (target_type : TargetType) (text : Str)
    (h : target_type = TargetType.TYPE_CHANNEL ∧ user.is_local = true ∧ text.length > m.cutoffLen)
    (hinit : env.curl_easy_init = none) :
    OnUserPreMessage m env user target_type text =
      { calls := [CurlCall.easy_init, CurlCall.easy_cleanup],
        returned := some (text, ModResult.MOD_RES_PASSTHRU) } := by
  unfold OnUserPreMessage
  rw [if_pos h, hinit]

/-- The run of the hook on a qualifying message when the transfer fails. -/
theorem OnUserPreMessage_failed (m : ModuleLargeTextPaste) (env : Libcurl) (user : User)
    (target_type : TargetType) (text : Str) (curl : CURL)
    (h : target_type = TargetType.TYPE_CHANNEL ∧ user.is_local = true ∧ text.length > m.cutoffLen)
    (hinit : env.curl_easy_init = some curl)
    (hres : (env.curl_easy_perform (setup_curl_request m env curl user.nick text)).1 ≠ CURLE_OK) :
    OnUserPreMessage m env user target_type text =
      { calls := [CurlCall.easy_init,
          CurlCall.easy_perform (setup_curl_request m env curl user.nick text),
          CurlCall.easy_cleanup],
        returned := some (text, ModResult.MOD_RES_PASSTHRU) } := by
  unfold OnUserPreMessage
  rw [if_pos h, hinit]
  simp only
  rw [if_neg hres]

/-- The run of the hook on a qualifying message when the transfer succeeds and
`response` can be read as the C string `r`. -/
theorem OnUserPreMessage_rewritten (m : ModuleLargeTextPaste) (env : Libcurl) (user : User)
    (target_type : TargetType) (text : Str) (curl : CURL) (r : Str)
    (h : target_type = TargetType.TYPE_CHANNEL ∧ user.is_local = true ∧ text.length > m.cutoffLen)
    (hinit : env.curl_easy_init = some curl)
    (hres : (env.curl_easy_perform (setup_curl_request m env curl user.nick text)).1 = CURLE_OK)
    (hr : c_str (deliver
      (env.curl_easy_perform (setup_curl_request m env curl user.nick text)).2 none) = some r) :
    OnUserPreMessage m env user target_type text =
      { calls := [CurlCall.easy_init,
          CurlCall.easy_perform (setup_curl_request m env curl user.nick text),
          CurlCall.easy_cleanup],
        returned := some (resize text m.snipLen ++ "... (more ".toList ++ r ++ " )".toList,
          ModResult.MOD_RES_PASSTHRU) } := by
  unfold OnUserPreMessage
  rw [if_pos h, hinit]
  simp only
  rw [if_pos hres, hr]

/-- The run of the hook on a qualifying message when the transfer succeeds and
`response` cannot be read as a C string. -/
theorem OnUserPreMessage_unreadable (m : ModuleLargeTextPaste) (env : Libcurl) (user : User)
    (target_type : TargetType) (text : Str) (curl : CURL)
    (h : target_type = TargetType.TYPE_CHANNEL ∧ user.is_local = true ∧ text.length > m.cutoffLen)
    (hinit : env.curl_easy_init = some curl)
    (hres : (env.curl_easy_perform (setup_curl_request m env curl user.nick text)).1 = CURLE_OK)
    (hr : c_str (deliver
      (env.curl_easy_perform (setup_curl_request m env curl user.nick text)).2 none) = none) :
    OnUserPreMessage m env user target_type text =
      { calls := [CurlCall.easy_init,
          CurlCall.easy_perform (setup_curl_request m env curl user.nick text)],
        returned := none } := by
  unfold OnUserPreMessage
  rw [if_pos h, hinit]
  simp only
  rw [if_pos hres, hr]

/-- Whenever the hook returns, the disposition is `MOD_RES_PASSTHRU`. -/
theorem OnUserPreMessage_returned_passthru (m : ModuleLargeTextPaste) (env : Libcurl)
    (user : User) (target_type : TargetType) (text body : Str) (res : ModResult)
    (hret : (OnUserPreMessage m env user target_type text).returned = some (body, res)) :
    res = ModResult.MOD_RES_PASSTHRU := by
  unfold OnUserPreMessage at hret
  split at hret
  · split at hret
    · simp only at hret
      split at hret
      · split at hret
        · simp only [Option.some.injEq, Prod.mk.injEq] at hret
          exact hret.2.symm
        · simp at hret
      · simp only [Option.some.injEq, Prod.mk.injEq] at hret
        exact hret.2.symm
    · simp only [Option.some.injEq, Prod.mk.injEq] at hret
      exact hret.2.symm
  · simp only [Option.some.injEq, Prod.mk.injEq] at hret
    exact hret.2.symm

/-! ## The interception decision and the number of uploads (C1) -/

/-- C1, as stated, fails: a qualifying message (channel target, local user, three
characters against a cutoff of two) for which `curl_easy_init` returns a null pointer
is not uploaded, so the number of `curl_easy_perform` calls is not the one the
qualifying condition alone predicts. -/
theorem OnUserPreMessage_upload_count_counterexample :
    ¬ ((OnUserPreMessage (sampleModule 2 2) envNoHandle localUser TargetType.TYPE_CHANNEL
          "abc".toList).calls.countP CurlCall.isPerform =
        if TargetType.TYPE_CHANNEL = TargetType.TYPE_CHANNEL ∧ localUser.is_local = true ∧
            "abc".toList.length > (sampleModule 2 2).cutoffLen then 1 else 0) := by
  decide

/-- C1, amended: `OnUserPreMessage` calls `curl_easy_perform` exactly once when the
target is a channel, the user is local, `text.length() > cutoffLen` and
`curl_easy_init` returned a handle, and not at all otherwise; so never more than
once. -/
theorem OnUserPreMessage_upload_count (m : ModuleLargeTextPaste) (env : Libcurl) (user : User)
    (target_type : TargetType) (text : Str) :
    (OnUserPreMessage m env user target_type text).calls.countP CurlCall.isPerform =
      (if target_type = TargetType.TYPE_CHANNEL ∧ user.is_local = true ∧
          text.length > m.cutoffLen ∧ env.curl_easy_init.isSome = true then 1 else 0) ∧
    (OnUserPreMessage m env user target_type text).calls.countP CurlCall.isPerform ≤ 1 := by
  by_cases h : target_type = TargetType.TYPE_CHANNEL ∧ user.is_local = true ∧
      text.length > m.cutoffLen
  · cases hinit : env.curl_easy_init with
    | none =>
      rw [OnUserPreMessage_no_handle m env user target_type text h hinit]
      simp [CurlCall.isPerform]
    | some curl =>
      have hc : target_type = TargetType.TYPE_CHANNEL ∧ user.is_local = true ∧
          text.length > m.cutoffLen ∧ (some curl : Option CURL).isSome = true :=
        ⟨h.1, h.2.1, h.2.2, rfl⟩
      rw [if_pos hc]
      by_cases hres :
          (env.curl_easy_perform (setup_curl_request m env curl user.nick text)).1 = CURLE_OK
      · cases hr : c_str (deliver
            (env.curl_easy_perform (setup_curl_request m env curl user.nick text)).2 none) with
        | none =>
          rw [OnUserPreMessage_unreadable m env user target_type text curl h hinit hres hr]
          simp [CurlCall.isPerform]
        | some r =>
          rw [OnUserPreMessage_rewritten m env user target_type text curl r h hinit hres hr]
          simp [CurlCall.isPerform]
      · rw [OnUserPreMessage_failed m env user target_type text curl h hinit hres]
        simp [CurlCall.isPerform]
  · rw [OnUserPreMessage_not_qualifying m env user target_type text h]
    have hc : ¬ (target_type = TargetType.TYPE_CHANNEL ∧ user.is_local = true ∧
        text.length > m.cutoffLen ∧ env.curl_easy_init.isSome = true) :=
      fun hq => h ⟨hq.1, hq.2.1, hq.2.2.1⟩
    rw [if_neg hc]
    simp

/-! ## The rewritten body (C2, C3, C10) -/

/-- The rewritten body when the snippet length does not exceed the body length and
`response` can be read as the C string `r`: the first `snipLen` characters of the
body, the marker, `r`, and the trailer. -/
theorem OnUserPreMessage_readable_snippet (m : ModuleLargeTextPaste) (env : Libcurl)
    (user : User) (target_type : TargetType) (text : Str) (curl : CURL)
    (writes : List WriteCall) (r : Str)
    (hq : target_type = TargetType.TYPE_CHANNEL ∧ user.is_local = true ∧
      text.length > m.cutoffLen)
    (hsnip : m.snipLen ≤ text.length)
    (hinit : env.curl_easy_init = some curl)
    (hperf : env.curl_easy_perform (setup_curl_request m env curl user.nick text) =
      (CURLE_OK, writes))
    (hr : c_str (deliver writes none) = some r) :
    (OnUserPreMessage m env user target_type text).returned =
      some (text.take m.snipLen ++ "... (more ".toList ++ r ++ " )".toList,
        ModResult.MOD_RES_PASSTHRU) := by
  have hres : (env.curl_easy_perform (setup_curl_request m env curl user.nick text)).1 =
      CURLE_OK := by rw [hperf]
  have hr2 : c_str (deliver
      (env.curl_easy_perform (setup_curl_request m env curl user.nick text)).2 none) =
      some r := by rw [hperf]; exact hr
  rw [OnUserPreMessage_rewritten m env user target_type text curl r hq hinit hres hr2,
    resize_of_le text m.snipLen hsnip]

/-- The run of the hook on a qualifying message whose transfer succeeds and whose last
chunk is `size * nmemb` characters without a `'\0'`, as a text response is: the
buffer `write_data` leaves has no terminator, `text.append(response)` cannot read it
as a C string, and no body is defined. -/
theorem OnUserPreMessage_unterminated (m : ModuleLargeTextPaste) (env : Libcurl)
    (user : User) (target_type : TargetType) (text : Str) (curl : CURL)
    (writes : List WriteCall) (w : WriteCall)
    (hq : target_type = TargetType.TYPE_CHANNEL ∧ user.is_local = true ∧
      text.length > m.cutoffLen)
    (hinit : env.curl_easy_init = some curl)
    (hperf : env.curl_easy_perform (setup_curl_request m env curl user.nick text) =
      (CURLE_OK, writes ++ [w]))
    (hlen : w.ptr.length = w.size * w.nmemb) (h0 : NUL ∉ w.ptr) :
    (OnUserPreMessage m env user target_type text).returned = none := by
  have hres : (env.curl_easy_perform (setup_curl_request m env curl user.nick text)).1 =
      CURLE_OK := by rw [hperf]
  have hr : c_str (deliver
      (env.curl_easy_perform (setup_curl_request m env curl user.nick text)).2 none) =
      none := by
    rw [hperf, c_str_deliver_unterminated writes w none hlen h0]
  rw [OnUserPreMessage_unreadable m env user target_type text curl hq hinit hres hr]

/-- C2 at its failing input, the scenario of the specification: cutoff 300, snippet
length 60, a body of 301 characters `a`, a local user, a channel target, and a
transfer that succeeds with the 24 characters `http://paste.example/xyz` delivered in
one call of the write callback. `write_data` stores them in a buffer of 24 characters
with no terminator, so `text.append(response)` has no C string to read: the hook does
not return the body the claim gives. -/
theorem OnUserPreMessage_scenario_unterminated :
    (List.replicate 301 'a').length > (sampleModule 60 300).cutoffLen ∧
    (sampleModule 60 300).snipLen ≤ (List.replicate 301 'a').length ∧
    deliver [plainWrite "http://paste.example/xyz".toList] none =
      some "http://paste.example/xyz".toList ∧
    c_str (deliver [plainWrite "http://paste.example/xyz".toList] none) = none ∧
    (OnUserPreMessage (sampleModule 60 300)
        (envOk [plainWrite "http://paste.example/xyz".toList]) localUser
        TargetType.TYPE_CHANNEL (List.replicate 301 'a')).returned = none ∧
    (OnUserPreMessage (sampleModule 60 300)
        (envOk [plainWrite "http://paste.example/xyz".toList]) localUser
        TargetType.TYPE_CHANNEL (List.replicate 301 'a')).returned ≠
      some (List.replicate 60 'a' ++ "... (more http://paste.example/xyz )".toList,
        ModResult.MOD_RES_PASSTHRU) := by
  have hlen : (List.replicate 301 'a').length > (sampleModule 60 300).cutoffLen := by
    rw [List.length_replicate]
    decide
  have hsnip : (sampleModule 60 300).snipLen ≤ (List.replicate 301 'a').length := by
    rw [List.length_replicate]
    decide
  have h : (OnUserPreMessage (sampleModule 60 300)
      (envOk [plainWrite "http://paste.example/xyz".toList]) localUser
      TargetType.TYPE_CHANNEL (List.replicate 301 'a')).returned = none :=
    OnUserPreMessage_unterminated (sampleModule 60 300)
      (envOk [plainWrite "http://paste.example/xyz".toList]) localUser
      TargetType.TYPE_CHANNEL (List.replicate 301 'a') freshHandle []
      (plainWrite "http://paste.example/xyz".toList) ⟨rfl, rfl, hlen⟩ rfl rfl
      (by decide) (by decide)
  refine ⟨hlen, hsnip, by decide, by decide, h, ?_⟩
  rw [h]
  exact fun hne => Option.noConfusion hne

/-- The same scenario with a response that carries its own terminator (25 characters,
the last one `'\0'`): the hook returns 60 characters `a` followed by
`... (more http://paste.example/xyz )`. -/
theorem OnUserPreMessage_scenario_terminated :
    (OnUserPreMessage (sampleModule 60 300)
        (envOk [terminatedWrite "http://paste.example/xyz".toList]) localUser
        TargetType.TYPE_CHANNEL (List.replicate 301 'a')).returned =
      some (List.replicate 60 'a' ++ "... (more http://paste.example/xyz )".toList,
        ModResult.MOD_RES_PASSTHRU) := by
  have hlen : (List.replicate 301 'a').length > (sampleModule 60 300).cutoffLen := by
    rw [List.length_replicate]
    decide
  have hsnip : (sampleModule 60 300).snipLen ≤ (List.replicate 301 'a').length := by
    rw [List.length_replicate]
    decide
  have hr : c_str (deliver [terminatedWrite "http://paste.example/xyz".toList] none) =
      some "http://paste.example/xyz".toList := by decide
  have h := OnUserPreMessage_readable_snippet (sampleModule 60 300)
    (envOk [terminatedWrite "http://paste.example/xyz".toList]) localUser
    TargetType.TYPE_CHANNEL (List.replicate 301 'a') freshHandle
    [terminatedWrite "http://paste.example/xyz".toList] "http://paste.example/xyz".toList
    ⟨rfl, rfl, hlen⟩ hsnip rfl rfl hr
  have ht : List.take (sampleModule 60 300).snipLen (List.replicate 301 'a') =
      List.replicate 60 'a' := by
    show List.take 60 (List.replicate 301 'a') = List.replicate 60 'a'
    rw [List.take_replicate]
    rfl
  rw [h, ht, List.append_assoc, List.append_assoc]
  rfl

/-- The length of the rewritten body when `response` can be read as the C string `r`:
`snipLen + len(r) + 12`, whatever `snipLen` is. -/
theorem OnUserPreMessage_readable_length (m : ModuleLargeTextPaste) (env : Libcurl)
    (user : User) (target_type : TargetType) (text : Str) (curl : CURL)
    (writes : List WriteCall) (r : Str)
    (hq : target_type = TargetType.TYPE_CHANNEL ∧ user.is_local = true ∧
      text.length > m.cutoffLen)
    (hinit : env.curl_easy_init = some curl)
    (hperf : env.curl_easy_perform (setup_curl_request m env curl user.nick text) =
      (CURLE_OK, writes))
    (hr : c_str (deliver writes none) = some r) :
    ∃ body : Str,
      (OnUserPreMessage m env user target_type text).returned =
        some (body, ModResult.MOD_RES_PASSTHRU) ∧
      body = resize text m.snipLen ++ "... (more ".toList ++ r ++ " )".toList ∧
      body.length = m.snipLen + r.length + 12 := by
  have hres : (env.curl_easy_perform (setup_curl_request m env curl user.nick text)).1 =
      CURLE_OK := by rw [hperf]
  have hr2 : c_str (deliver
      (env.curl_easy_perform (setup_curl_request m env curl user.nick text)).2 none) =
      some r := by rw [hperf]; exact hr
  refine ⟨resize text m.snipLen ++ "... (more ".toList ++ r ++ " )".toList, ?_, rfl, ?_⟩
  · rw [OnUserPreMessage_rewritten m env user target_type text curl r hq hinit hres hr2]
  · have h1 : "... (more ".toList.length = 10 := rfl
    have h2 : " )".toList.length = 2 := rfl
    simp only [List.length_append, resize_length, h1, h2]
    omega

/-- C3 at its failing input: cutoff 2, snippet length 5, the three-character body
`abc`, response `u`. The hook returns `abc`, two `'\0'` characters, then the marker
and the response; this is not the original body followed directly by the marker. -/
theorem OnUserPreMessage_padded_body :
    (sampleModule 5 2).snipLen ≥ "abc".toList.length ∧
    (OnUserPreMessage (sampleModule 5 2) (envOk [terminatedWrite "u".toList]) localUser
        TargetType.TYPE_CHANNEL "abc".toList).returned =
      some ("abc".toList ++ [NUL, NUL] ++ "... (more ".toList ++ "u".toList ++ " )".toList,
        ModResult.MOD_RES_PASSTHRU) ∧
    (OnUserPreMessage (sampleModule 5 2) (envOk [terminatedWrite "u".toList]) localUser
        TargetType.TYPE_CHANNEL "abc".toList).returned ≠
      some ("abc".toList ++ "... (more ".toList ++ "u".toList ++ " )".toList,
        ModResult.MOD_RES_PASSTHRU) := by
  decide

/-! ## Messages left alone (C4, C5) and the disposition (C6) -/

/-- C4: for a qualifying message, if `curl_easy_init` returns a null pointer, or
`curl_easy_perform` returns a code other than `CURLE_OK`, the hook returns with the
body equal to the original body. -/
theorem OnUserPreMessage_failure_keeps_body (m : ModuleLargeTextPaste) (env : Libcurl)
    (user : User) (target_type : TargetType) (text : Str)
    (hq : target_type = TargetType.TYPE_CHANNEL ∧ user.is_local = true ∧
      text.length > m.cutoffLen)
    (hfail : env.curl_easy_init = none ∨
      ∃ curl, env.curl_easy_init = some curl ∧
        (env.curl_easy_perform (setup_curl_request m env curl user.nick text)).1 ≠ CURLE_OK) :
    (OnUserPreMessage m env user target_type text).returned =
      some (text, ModResult.MOD_RES_PASSTHRU) := by
  rcases hfail with hinit | ⟨curl, hinit, hres⟩
  · rw [OnUserPreMessage_no_handle m env user target_type text hq hinit]
  · rw [OnUserPreMessage_failed m env user target_type text curl hq hinit hres]

/-- C4 at a body of three characters with cutoff 2: once with no handle, once with a
transfer that fails with code 7. -/
theorem OnUserPreMessage_failure_keeps_body_witness :
    (OnUserPreMessage (sampleModule 60 2) envNoHandle localUser TargetType.TYPE_CHANNEL
        "abc".toList).returned = some ("abc".toList, ModResult.MOD_RES_PASSTHRU) ∧
    (OnUserPreMessage (sampleModule 60 2) envFail localUser TargetType.TYPE_CHANNEL
        "abc".toList).returned = some ("abc".toList, ModResult.MOD_RES_PASSTHRU) :=
  ⟨OnUserPreMessage_failure_keeps_body (sampleModule 60 2) envNoHandle localUser
      TargetType.TYPE_CHANNEL "abc".toList ⟨rfl, rfl, by decide⟩ (Or.inl rfl),
    OnUserPreMessage_failure_keeps_body (sampleModule 60 2) envFail localUser
      TargetType.TYPE_CHANNEL "abc".toList ⟨rfl, rfl, by decide⟩
      (Or.inr ⟨freshHandle, rfl, by decide⟩)⟩

/-- C5: for a message that does not qualify (`len(text) <= cutoffLen`, or the target is
not a channel, or the user is not local), the hook returns with the body it was given
and makes no libcurl call, whatever the module's `snipLen`, `apiKey` and
`serviceUrl`. -/
theorem OnUserPreMessage_not_qualifying_keeps_body (m : ModuleLargeTextPaste) (env : Libcurl)
    (user : User) (target_type : TargetType) (text : Str)
    (hnq : text.length ≤ m.cutoffLen ∨ target_type ≠ TargetType.TYPE_CHANNEL ∨
      user.is_local = false) :
    (OnUserPreMessage m env user target_type text).returned =
      some (text, ModResult.MOD_RES_PASSTHRU) ∧
    (OnUserPreMessage m env user target_type text).calls = [] := by
  have h : ¬ (target_type = TargetType.TYPE_CHANNEL ∧ user.is_local = true ∧
      text.length > m.cutoffLen) := by
    rintro ⟨h1, h2, h3⟩
    rcases hnq with h | h | h
    · omega
    · exact h h1
    · rw [h] at h2
      exact Bool.noConfusion h2
  rw [OnUserPreMessage_not_qualifying m env user target_type text h]
  exact ⟨rfl, rfl⟩

/-- C5 at three inputs: a body as long as the cutoff, a direct message, and a remote
user. -/
theorem OnUserPreMessage_not_qualifying_keeps_body_witness :
    ((OnUserPreMessage (sampleModule 1 3) (envOk [terminatedWrite "u".toList]) localUser
        TargetType.TYPE_CHANNEL "abc".toList).returned =
        some ("abc".toList, ModResult.MOD_RES_PASSTHRU) ∧
      (OnUserPreMessage (sampleModule 1 3) (envOk [terminatedWrite "u".toList]) localUser
        TargetType.TYPE_CHANNEL "abc".toList).calls = []) ∧
    ((OnUserPreMessage (sampleModule 1 2) (envOk [terminatedWrite "u".toList]) localUser
        TargetType.TYPE_USER "abc".toList).returned =
        some ("abc".toList, ModResult.MOD_RES_PASSTHRU) ∧
      (OnUserPreMessage (sampleModule 1 2) (envOk [terminatedWrite "u".toList]) localUser
        TargetType.TYPE_USER "abc".toList).calls = []) ∧
    ((OnUserPreMessage (sampleModule 1 2) (envOk [terminatedWrite "u".toList]) remoteUser
        TargetType.TYPE_CHANNEL "abc".toList).returned =
        some ("abc".toList, ModResult.MOD_RES_PASSTHRU) ∧
      (OnUserPreMessage (sampleModule 1 2) (envOk [terminatedWrite "u".toList]) remoteUser
        TargetType.TYPE_CHANNEL "abc".toList).calls = []) :=
  ⟨OnUserPreMessage_not_qualifying_keeps_body (sampleModule 1 3)
      (envOk [terminatedWrite "u".toList]) localUser TargetType.TYPE_CHANNEL "abc".toList
      (Or.inl (by decide)),
    OnUserPreMessage_not_qualifying_keeps_body (sampleModule 1 2)
      (envOk [terminatedWrite "u".toList]) localUser TargetType.TYPE_USER "abc".toList
      (Or.inr (Or.inl (by decide))),
    OnUserPreMessage_not_qualifying_keeps_body (sampleModule 1 2)
      (envOk [terminatedWrite "u".toList]) remoteUser TargetType.TYPE_CHANNEL "abc".toList
      (Or.inr (Or.inr rfl))⟩

/-- C6 at its failing input: a qualifying message whose transfer returns `CURLE_OK`
without any call to the write callback (an empty response body). `response` is still
null when `text.append(response)` is reached, after `curl_easy_perform` and before
`curl_easy_cleanup`, and the hook returns no disposition. -/
theorem OnUserPreMessage_null_response :
    OnUserPreMessage (sampleModule 60 2) (envOk []) localUser TargetType.TYPE_CHANNEL
        "abc".toList =
      { calls := [CurlCall.easy_init,
          CurlCall.easy_perform (setup_curl_request (sampleModule 60 2) (envOk []) freshHandle
            localUser.nick "abc".toList)],
        returned := none } := by
  decide

/-! ## The request (C7) -/

/-- The local `postFields` of `setup_curl_request`, at the time it is handed to
`CURLOPT_POSTFIELDS`: the six fields in order, the text and `nick + " wrote"` escaped
by `curl_easy_escape`, the API key inserted as configured. -/
theorem setup_curl_request_before_return_postfields (m : ModuleLargeTextPaste)
    (env : Libcurl) (curl : CURL) (nick text : Str) :
    (setup_curl_request_before_return m env curl nick text).postfields =
      PostData.alive ("api_option=paste&api_dev_key=".toList ++ m.apiKey ++
        "&api_paste_code=".toList ++ env.curl_easy_escape text ++
        "&api_paste_name=".toList ++ env.curl_easy_escape (nick ++ " wrote".toList) ++
        "&api_paste_private=1&api_paste_expire_date=N".toList) := by
  have h1 : "api_option=paste&api_dev_key=".toList =
      "api_option=paste".toList ++ "&api_dev_key=".toList := rfl
  have h2 : "&api_paste_private=1&api_paste_expire_date=N".toList =
      "&api_paste_private=1".toList ++ "&api_paste_expire_date=N".toList := rfl
  simp only [setup_curl_request_before_return, postFields, h1, h2, List.append_assoc]

/-- For every module, environment, handle, nick and text, the handle that
`setup_curl_request` leaves to its caller has a `CURLOPT_POSTFIELDS` pointer into a
destroyed string; the URL and the POST flag are set. -/
theorem setup_curl_request_handle (m : ModuleLargeTextPaste) (env : Libcurl) (curl : CURL)
    (nick text : Str) :
    (setup_curl_request m env curl nick text).postfields = PostData.destroyed ∧
    (setup_curl_request m env curl nick text).url = m.serviceUrl ∧
    (setup_curl_request m env curl nick text).post = 1 :=
  ⟨rfl, rfl, rfl⟩

/-- C7 at its failing input: API key `key`, nick `alice`, text `abc`. Before
`setup_curl_request` returns, `CURLOPT_POSTFIELDS` points at the string the claim
gives; in the handle the caller passes to `curl_easy_perform` it points into the
destroyed local, so that string is not the POST body of the request. -/
theorem setup_curl_request_postfields_destroyed :
    (setup_curl_request_before_return (sampleModule 60 2) (envOk []) freshHandle
        "alice".toList "abc".toList).postfields =
      PostData.alive ("api_option=paste&api_dev_key=key&api_paste_code=abc".toList ++
        "&api_paste_name=alice%20wrote&api_paste_private=1&api_paste_expire_date=N".toList) ∧
    (setup_curl_request (sampleModule 60 2) (envOk []) freshHandle
        "alice".toList "abc".toList).postfields = PostData.destroyed ∧
    (setup_curl_request (sampleModule 60 2) (envOk []) freshHandle
        "alice".toList "abc".toList).postfields ≠
      PostData.alive ("api_option=paste&api_dev_key=key&api_paste_code=abc".toList ++
        "&api_paste_name=alice%20wrote&api_paste_private=1&api_paste_expire_date=N".toList) ∧
    (OnUserPreMessage (sampleModule 60 2) (envOk []) localUser TargetType.TYPE_CHANNEL
        "abc".toList).calls.filter CurlCall.isPerform =
      [CurlCall.easy_perform
        { url := "http://pastebin.com/api/api_post.php".toList, post := 1,
          postfields := PostData.destroyed }] := by
  decide

/-! ## The write callback (C8) -/

/-- C8, as stated, fails: for a response delivered as the two chunks `ab` and `cd`, the
response stored after the last callback is `cd`, not `abcd`. -/
theorem deliver_two_chunks_counterexample :
    deliver [plainWrite "ab".toList, plainWrite "cd".toList] none = some "cd".toList ∧
    deliver [plainWrite "ab".toList, plainWrite "cd".toList] none ≠
      some ((plainWrite "ab".toList).ptr ++ (plainWrite "cd".toList).ptr) := by
  decide

/-- C8, amended: after a sequence of one or more calls to `write_data`, `response`
points at a buffer of `size * nmemb` characters that holds the chunk of the last call
only, as `strncpy` copies it; when that chunk has `size * nmemb` characters and no
`'\0'` among them, the buffer is that chunk, so a response delivered as a single such
chunk is stored whole. Each call returns `size * nmemb`. -/
theorem deliver_last_chunk (writes : List WriteCall) (w : WriteCall) (response : CharPtr) :
    deliver (writes ++ [w]) response = some (strncpy w.ptr (w.size * w.nmemb)) ∧
    (∀ buf, deliver (writes ++ [w]) response = some buf → buf.length = w.size * w.nmemb) ∧
    (w.ptr.length = w.size * w.nmemb → NUL ∉ w.ptr →
      deliver (writes ++ [w]) response = some w.ptr) ∧
    (∀ (v : WriteCall) (p : CharPtr), (write_data v.ptr v.size v.nmemb p).2 = v.size * v.nmemb) := by
  have h : deliver (writes ++ [w]) response = some (strncpy w.ptr (w.size * w.nmemb)) := by
    simp [deliver, write_data, List.foldl_append]
  refine ⟨h, ?_, ?_, ?_⟩
  · intro buf hb
    rw [h] at hb
    cases hb
    exact strncpy_length _ _
  · intro hn h0
    rw [h, strncpy_of_no_NUL w.ptr _ hn h0]
  · intro v p
    rfl

/-- C8, amended, at a response delivered as the single chunk `http://p/x`: the stored
buffer is that chunk. -/
theorem deliver_last_chunk_witness :
    (plainWrite "http://p/x".toList).ptr.length =
      (plainWrite "http://p/x".toList).size * (plainWrite "http://p/x".toList).nmemb ∧
    NUL ∉ (plainWrite "http://p/x".toList).ptr ∧
    deliver ([] ++ [plainWrite "http://p/x".toList]) none = some "http://p/x".toList :=
  ⟨by decide, by decide,
    (deliver_last_chunk [] (plainWrite "http://p/x".toList) none).2.2.1 (by decide) (by decide)⟩

/-! ## Configuration (C9) -/

/-- After `init`, the service URL is the pastebin.com endpoint and the other members
are those `OnRehash` reads. -/
theorem init_serviceUrl (m : ModuleLargeTextPaste) (conf : ConfigTag) :
    (init m conf).serviceUrl = "http://pastebin.com/api/api_post.php".toList ∧
    (init m conf).snipLen = (OnRehash m conf).snipLen ∧
    (init m conf).cutoffLen = (OnRehash m conf).cutoffLen ∧
    (init m conf).apiKey = (OnRehash m conf).apiKey :=
  ⟨rfl, rfl, rfl, rfl⟩

/-- C9, as stated, fails: with `sniplen` configured as `-1`, `snipLen` is `4294967295`
after `OnRehash`, not the configured value. -/
theorem OnRehash_negative_counterexample :
    ¬ (((OnRehash (sampleModule 60 300) (sampleConf (some (-1)) none none)).snipLen : Int) =
        ((sampleConf (some (-1)) none none).ints "sniplen").getD 60) ∧
    (OnRehash (sampleModule 60 300) (sampleConf (some (-1)) none none)).snipLen =
      4294967295 := by
  decide

/-- C9, amended: after `OnRehash`, `snipLen` is the configured `sniplen` reduced modulo
`2^32` (the configured value itself when it lies between `0` and `2^32 - 1`), or 60
when the key is absent; `cutoffLen` is the configured `cutofflen` reduced in the same
way, or 300 when absent; `apiKey` is the configured `apikey`, or the empty string when
absent; `serviceUrl` is unchanged. -/
theorem OnRehash_reads_config (m : ModuleLargeTextPaste) (conf : ConfigTag) :
    (∀ v, conf.ints "sniplen" = some v →
      ((OnRehash m conf).snipLen : Int) = v % 4294967296 ∧
      (0 ≤ v → v < 4294967296 → ((OnRehash m conf).snipLen : Int) = v)) ∧
    (conf.ints "sniplen" = none → (OnRehash m conf).snipLen = 60) ∧
    (∀ v, conf.ints "cutofflen" = some v →
      ((OnRehash m conf).cutoffLen : Int) = v % 4294967296 ∧
      (0 ≤ v → v < 4294967296 → ((OnRehash m conf).cutoffLen : Int) = v)) ∧
    (conf.ints "cutofflen" = none → (OnRehash m conf).cutoffLen = 300) ∧
    (∀ s, conf.strings "apikey" = some s → (OnRehash m conf).apiKey = s) ∧
    (conf.strings "apikey" = none → (OnRehash m conf).apiKey = []) ∧
    (OnRehash m conf).serviceUrl = m.serviceUrl := by
  refine ⟨?_, ?_, ?_, ?_, ?_, ?_, rfl⟩
  · intro v hv
    have h : (OnRehash m conf).snipLen = to_unsigned_int v := by
      simp [OnRehash, ConfigTag.getInt, hv]
    rw [h]
    exact ⟨to_unsigned_int_cast v, to_unsigned_int_of_range v⟩
  · intro hv
    simp [OnRehash, ConfigTag.getInt, hv, to_unsigned_int]
  · intro v hv
    have h : (OnRehash m conf).cutoffLen = to_unsigned_int v := by
      simp [OnRehash, ConfigTag.getInt, hv]
    rw [h]
    exact ⟨to_unsigned_int_cast v, to_unsigned_int_of_range v⟩
  · intro hv
    simp [OnRehash, ConfigTag.getInt, hv, to_unsigned_int]
  · intro s hs
    simp [OnRehash, ConfigTag.getString, hs]
  · intro hs
    simp [OnRehash, ConfigTag.getString, hs]

/-- C9, amended, at a configuration with `sniplen` 80, no `cutofflen` and `apikey`
`k`: `snipLen` is 80, `cutoffLen` is 300, `apiKey` is `k`. -/
theorem OnRehash_reads_config_witness :
    ((OnRehash (sampleModule 1 2) (sampleConf (some 80) none (some "k".toList))).snipLen : Int)
      = 80 ∧
    (OnRehash (sampleModule 1 2) (sampleConf (some 80) none (some "k".toList))).cutoffLen
      = 300 ∧
    (OnRehash (sampleModule 1 2) (sampleConf (some 80) none (some "k".toList))).apiKey
      = "k".toList :=
  ⟨((OnRehash_reads_config (sampleModule 1 2)
      (sampleConf (some 80) none (some "k".toList))).1 80 (by decide)).2
        (by decide) (by decide),
    (OnRehash_reads_config (sampleModule 1 2)
      (sampleConf (some 80) none (some "k".toList))).2.2.2.1 (by decide),
    (OnRehash_reads_config (sampleModule 1 2)
      (sampleConf (some 80) none (some "k".toList))).2.2.2.2.1 "k".toList (by decide)⟩

end ModuleLargeTextPaste

end LargeTextPaste
